import Mathlib

/-!
Verification development for the plotting module of pyTurbSim
(source file pyts/plot/main.py).  The definitions below are a shallow
embedding of that module.  External numeric data (the tsdata and tsrun
containers) are modelled with rational arrays; the external spectral
routines of the plotting library (mlab.psd, mlab.cohere) are passed in
as explicit function parameters, since the module only wraps them.
-/

/-- Python int() applied to a rational number: truncation toward zero. -/
def pyInt (q : ℚ) : ℤ :=
  if 0 ≤ q then ⌊q⌋ else ⌈q⌉

/-- Model of the tsdata container used by the module: sample interval,
hub index (iz, iy), grid heights, mean profile (comp, z, y), turbulence
time series (comp, z, y, time) and the stress array (comp, z, y). -/
structure TsDataM where
  dt : ℚ
  ihub : ℕ × ℕ
  z : List ℚ
  uprof : List (List (List ℚ))
  uturb : List (List (List (List ℚ)))
  stress : List (List (List ℚ))
deriving DecidableEq

/-- Model of the tsrun container: only the pieces read by the module. -/
structure TsRunM where
  grid_ihub : ℕ × ℕ
  grid_z : List ℚ
  stress_array : List (List (List ℚ))
deriving DecidableEq

/-- tsdata.uturb[comp][igrid]: the time series at one grid point. -/
def uturbAt (tsd : TsDataM) (comp : ℕ) (ig : ℕ × ℕ) : List ℚ :=
  ((tsd.uturb.getD comp []).getD ig.1 []).getD ig.2 []

/-- Numpy style column access row[j], with wrapping of negative indices. -/
def npColGet (row : List ℚ) (j : ℤ) : ℚ :=
  let k := if j < 0 then j + (row.length : ℤ) else j
  row.getD k.toNat 0

/-- main.py psd (lines 8-28): call mlab.psd, getting (p, f), and return
(f[1:], p[1:]).  The external routine is the parameter mlabPsd, taking
the signal, nfft and the sample rate. -/
def psd (mlabPsd : List ℚ → ℤ → ℚ → List ℚ × List ℚ)
    (u : List ℚ) (sr : ℚ) (nfft : ℤ) : List ℚ × List ℚ :=
  let pf := mlabPsd u nfft sr
  (pf.2.drop 1, pf.1.drop 1)

/-- main.py coh (lines 30-52): call mlab.cohere, getting (p, f), and
return (f[1:], p[1:]). -/
def coh (mlabCoh : List ℚ → List ℚ → ℤ → ℚ → List ℚ × List ℚ)
    (u1 u2 : List ℚ) (sr : ℚ) (nfft : ℤ) : List ℚ × List ℚ :=
  let pf := mlabCoh u1 u2 nfft sr
  (pf.2.drop 1, pf.1.drop 1)

/-- State of a spec_axForm object after construction. -/
structure SpecAxForm where
  window_time : ℚ
  igrid : Option (ℕ × ℕ)
deriving DecidableEq

/-- State of a cohere_axForm object after construction. -/
structure CohereAxForm where
  window_time : ℚ
  igrid0 : Option (ℕ × ℕ)
  igrid1 : Option (ℕ × ℕ)
deriving DecidableEq

/-- spec_axForm.__init__ (lines 261-263): stores the literal 600 as
window_time, whatever window_time_sec was passed. -/
def spec_axForm_init (window_time_sec : ℚ) (igrid : Option (ℕ × ℕ)) : SpecAxForm :=
  ⟨600, igrid⟩

/-- cohere_axForm.__init__ (lines 300-303): stores the literal 600 as
window_time, whatever window_time_sec was passed. -/
def cohere_axForm_init (window_time_sec : ℚ) (igrid0 igrid1 : Option (ℕ × ℕ)) : CohereAxForm :=
  ⟨600, igrid0, igrid1⟩

/-- nfft computation of spec_axForm._calc_tsdata (lines 266-267):
nfft = int(window_time / dt); nfft += np.mod(nfft, 2). -/
def spec_axForm_nfft (self : SpecAxForm) (dt : ℚ) : ℤ :=
  let nfft := pyInt (self.window_time / dt)
  nfft + nfft % 2

/-- nfft computation of cohere_axForm._calc_tsdata (lines 306-307). -/
def cohere_axForm_nfft (self : CohereAxForm) (dt : ℚ) : ℤ :=
  let nfft := pyInt (self.window_time / dt)
  nfft + nfft % 2

/-- Resolution of a chain a or b or c of optional grid tuples: tuples
are nonempty pairs, hence always truthy in Python. -/
def orGrid (a b : Option (ℕ × ℕ)) (c : ℕ × ℕ) : ℕ × ℕ :=
  match a, b with
  | some g, _ => g
  | none, some g => g
  | none, none => c

/-- spec_axForm._calc_tsdata (lines 265-269). -/
def spec_axForm_calc_tsdata (mlabPsd : List ℚ → ℤ → ℚ → List ℚ × List ℚ)
    (self : SpecAxForm) (tsd : TsDataM) (comp : ℕ) (igrid : Option (ℕ × ℕ)) :
    List ℚ × List ℚ :=
  let nfft := spec_axForm_nfft self tsd.dt
  let ig := orGrid igrid self.igrid tsd.ihub
  psd mlabPsd (uturbAt tsd comp ig) (1 / tsd.dt) nfft

/-- cohere_axForm._calc_tsdata (lines 305-310). -/
def cohere_axForm_calc_tsdata (mlabCoh : List ℚ → List ℚ → ℤ → ℚ → List ℚ × List ℚ)
    (self : CohereAxForm) (tsd : TsDataM) (comp : ℕ)
    (igrid0 igrid1 : Option (ℕ × ℕ)) : List ℚ × List ℚ :=
  let nfft := cohere_axForm_nfft self tsd.dt
  let ig0 := orGrid igrid0 self.igrid0 tsd.ihub
  let ig1 := orGrid igrid1 self.igrid1 (0, 0)
  coh mlabCoh (uturbAt tsd comp ig0) (uturbAt tsd comp ig1) (1 / tsd.dt) nfft

/-- plot_spectra (lines 419-434): for each of the three components it
calls mlab.psd directly, getting (p, f), and plots (f, p) in full.  The
optional theory-line overlay (the tm attribute) is a separate cosmetic
plot call and is not part of the spectral estimate modelled here. -/
def plot_spectra (mlabPsd : List ℚ → ℤ → ℚ → List ℚ × List ℚ)
    (tsd : TsDataM) (nfft : ℤ) (igrid : Option (ℕ × ℕ)) :
    List (List ℚ × List ℚ) :=
  let ig := igrid.getD tsd.ihub
  (List.range 3).map (fun ind =>
    let pf := mlabPsd (uturbAt tsd ind ig) nfft (1 / tsd.dt)
    (pf.2, pf.1))

/-- summfig.plot_spec (lines 582-590): calls mlab.psd directly with the
stored nfft and grid index and plots the full (f, p) arrays. -/
def summfig_plot_spec (mlabPsd : List ℚ → ℤ → ℚ → List ℚ × List ℚ)
    (self_nfft : ℤ) (self_igrid : ℕ × ℕ) (tsd : TsDataM) :
    List (List ℚ × List ℚ) :=
  (List.range 3).map (fun ind =>
    let pf := mlabPsd (uturbAt tsd ind self_igrid) self_nfft (1 / tsd.dt)
    (pf.2, pf.1))

/-- summfig.plot_coh (lines 602-610): calls mlab.cohere directly with
the stored nfft and the two grid indices and plots the full (f, p). -/
def summfig_plot_coh (mlabCoh : List ℚ → List ℚ → ℤ → ℚ → List ℚ × List ℚ)
    (self_nfft : ℤ) (self_igrid self_icoh : ℕ × ℕ) (tsd : TsDataM) :
    List (List ℚ × List ℚ) :=
  (List.range 3).map (fun ind =>
    let pf := mlabCoh (uturbAt tsd ind self_igrid) (uturbAt tsd ind self_icoh)
      self_nfft (1 / tsd.dt)
    (pf.2, pf.1))

/-- Values passed as matplotlib keyword arguments. -/
inductive PyArg where
  | numA (q : ℚ)
  | strA (s : String)
  | boolA (b : Bool)
deriving DecidableEq

/-- Python dict.setdefault on an association list: leave the dict alone
when the key is present, otherwise add the key with the given value. -/
def dict_setdefault (kwargs : List (String × PyArg)) (k : String) (v : PyArg) :
    List (String × PyArg) :=
  if (kwargs.lookup k).isSome then kwargs else kwargs ++ [(k, v)]

/-- The argument list handed to fig.savefig. -/
structure SaveCall where
  args : List PyArg
  kwargs : List (String × PyArg)
deriving DecidableEq

/-- summfig.savefig (lines 648-650): kwargs.setdefault(dpi, 300) and
forward everything to fig.savefig. -/
def summfig_savefig (args : List PyArg) (kwargs : List (String × PyArg)) : SaveCall :=
  ⟨args, dict_setdefault kwargs "dpi" (PyArg.numA 300)⟩

/-- Python truthiness of v or d where v is None or an integer: None
and 0 both fall through to the default d. -/
def pyOrInt (v : Option ℤ) (d : ℤ) : ℤ :=
  match v with
  | some n => if n = 0 then d else n
  | none => d

/-- stressprof_axForm._calc_tsdata (lines 231-233):
igrid = igrid or tsdata.ihub[1]; return stress[comp,:,igrid], z. -/
def stressprof_calc_tsdata (tsd : TsDataM) (comp : ℕ) (igrid : Option ℤ) :
    List ℚ × List ℚ :=
  let ig := pyOrInt igrid (tsd.ihub.2 : ℤ)
  ((tsd.stress.getD comp []).map (fun row => npColGet row ig), tsd.z)

/-- stressprof_axForm._calc_tsrun (lines 235-237):
igrid = igrid or tsrun.grid.ihub[1]; return stress.array[comp,:,igrid], z. -/
def stressprof_calc_tsrun (tsr : TsRunM) (comp : ℕ) (igrid : Option ℤ) :
    List ℚ × List ℚ :=
  let ig := pyOrInt igrid (tsr.grid_ihub.2 : ℤ)
  ((tsr.stress_array.getD comp []).map (fun row => npColGet row ig), tsr.grid_z)

/-- Python values that can reach the parameters of summfig.setinds via
the call in showts: None, an index tuple, or a tsdata object. -/
inductive PyVal where
  | noneV
  | pairV (i j : ℤ)
  | dataV (d : TsDataM)
deriving DecidableEq

/-- The type name Python would print for a PyVal. -/
def pyTypeName : PyVal → String
  | PyVal.noneV => "NoneType"
  | PyVal.pairV _ _ => "tuple"
  | PyVal.dataV _ => "tsdata"

/-- Attribute access v.ihub: only a tsdata object has it. -/
def getattr_ihub : PyVal → Except String PyVal
  | PyVal.dataV d => Except.ok (PyVal.pairV d.ihub.1 d.ihub.2)
  | v => Except.error ("AttributeError: " ++ pyTypeName v ++ " object has no attribute ihub")

/-- summfig.setinds (lines 569-580), with its declared parameter order
(tsdata, igrid, icoh).  Returns the (igrid, icoh) state it stores. -/
def summfig_setinds (tsdata_arg igrid_arg icoh_arg : PyVal) :
    Except String (PyVal × PyVal) :=
  match (if igrid_arg = PyVal.noneV then getattr_ihub tsdata_arg else Except.ok igrid_arg) with
  | Except.error e => Except.error e
  | Except.ok ig =>
      Except.ok (ig, if icoh_arg = PyVal.noneV then PyVal.pairV 0 0 else icoh_arg)

/-- Subscript v[1]: only a tuple supports it. -/
def pyTupleGet1 : PyVal → Except String ℤ
  | PyVal.pairV _ j => Except.ok j
  | v => Except.error ("TypeError: " ++ pyTypeName v ++ " is not subscriptable")

/-- summfig.plot_prof (lines 495-504): plots uprof[ind][:, igrid[1]]
against z for each of the three components. -/
def summfig_plot_prof (igrid_state : PyVal) (tsd : TsDataM) :
    Except String (List (List ℚ × List ℚ)) :=
  match pyTupleGet1 igrid_state with
  | Except.error e => Except.error e
  | Except.ok j =>
      Except.ok ((List.range 3).map (fun ind =>
        ((tsd.uprof.getD ind []).map (fun row => npColGet row j), tsd.z)))

/-- showts (lines 652-658), fresh-figure branch: it calls
fg.setinds(igrid, icoh, tsdata) positionally, so the igrid argument
lands in the tsdata parameter, icoh in the igrid parameter and the
data object in the icoh parameter; afterwards it calls plot_prof. -/
def showts (tsd : TsDataM) (igrid icoh : PyVal) :
    Except String (List (List ℚ × List ℚ)) :=
  match summfig_setinds igrid icoh (PyVal.dataV tsd) with
  | Except.error e => Except.error e
  | Except.ok inds => summfig_plot_prof inds.1 tsd

/-- The classes that can appear in the method resolution order of an
object handed to a plotting format. -/
inductive PyClass where
  | tsdata
  | tsrun
  | objectCls
  | otherCls (s : String)
deriving DecidableEq

/-- The two method names stored in base_axForm.method_map. -/
inductive MethName where
  | calcTsdata
  | calcTsrun
deriving DecidableEq

/-- base_axForm.method_map (line 59). -/
def method_map : List (PyClass × MethName) :=
  [(PyClass.tsdata, MethName.calcTsdata), (PyClass.tsrun, MethName.calcTsrun)]

/-- An object handed to a format: its printed class name and its mro. -/
structure PyObj where
  clsName : String
  mro : List PyClass
deriving DecidableEq

/-- A component argument: the string u, v, w or an integer index. -/
inductive CompArg where
  | strC (s : String)
  | intC (n : ℕ)
deriving DecidableEq

/-- indx (line 6). -/
def indx : List (String × ℕ) :=
  [("u", 0), ("v", 1), ("w", 2)]

/-- The comp normalisation at the top of base_axForm._calc (lines
119-120): a string component is looked up in indx. -/
def compIndex : CompArg → Except String ℕ
  | CompArg.strC s =>
      match indx.lookup s with
      | some n => Except.ok n
      | none => Except.error ("KeyError: " ++ s)
  | CompArg.intC n => Except.ok n

/-- What a call to _calc produces: (NaN, NaN) when the format lacks the
method, otherwise the pair of arrays the method returned. -/
inductive CalcResult where
  | nanPair
  | pair (xy : List ℚ × List ℚ)
deriving DecidableEq

/-- A plotting format as seen by base_axForm._calc: its class name and
its two optional calc methods (hasattr is modelled by Option). -/
structure AxFormM where
  name : String
  calc_tsdata : Option (PyObj → ℕ → List ℚ × List ℚ)
  calc_tsrun : Option (PyObj → ℕ → List ℚ × List ℚ)

/-- getattr(self, meth) for the two method names. -/
def getMeth (self : AxFormM) : MethName → Option (PyObj → ℕ → List ℚ × List ℚ)
  | MethName.calcTsdata => self.calc_tsdata
  | MethName.calcTsrun => self.calc_tsrun

/-- The loop of base_axForm._calc over method_map (line 121-122): the
first entry whose class appears in the mro of the object wins. -/
def findMeth : List (PyClass × MethName) → List PyClass → Option MethName
  | [], _ => none
  | (cls, m) :: rest, mro => if cls ∈ mro then some m else findMeth rest mro

/-- base_axForm._calc (lines 119-126). -/
def base_axForm_calc (self : AxFormM) (obj : PyObj) (comp : CompArg) :
    Except String CalcResult :=
  match compIndex comp with
  | Except.error e => Except.error e
  | Except.ok c =>
      match findMeth method_map obj.mro with
      | some m =>
          match getMeth self m with
          | some g => Except.ok (CalcResult.pair (g obj c))
          | none => Except.ok CalcResult.nanPair
      | none =>
          Except.error ("Object type " ++ obj.clsName ++ " not recognized for "
            ++ self.name ++ " axes-type")

/-- The configuration fields of a format object that fig_axForms
touches or that a format stores at construction. -/
structure AxFormCfg where
  yax : String
  hide_ylabels : Bool
  hrel : Option ℚ
  window_time : ℚ
  igrid : Option (ℤ × ℤ)
deriving DecidableEq

/-- The one mutation fig_axForms.__init__ performs on a format. -/
def markHideY (a : AxFormCfg) : AxFormCfg :=
  { a with hide_ylabels := true }

/-- The loop of fig_axForms.__init__ over axforms (lines 365-373) as it
acts on the format objects: a format whose yax equals the yax of the
preceding format gets hide_ylabels set to True; everything else the
loop does goes to the spacers and share tables, not to the formats. -/
def figForms_loop (last_yax : Option String) : List AxFormCfg → List AxFormCfg
  | [] => []
  | a :: rest =>
      (if last_yax = some a.yax then markHideY a else a)
        :: figForms_loop (some a.yax) rest

/-- fig_axForms.__init__ (lines 356-380) restricted to its effect on
the format objects: an empty axforms list raises, otherwise the loop
above runs with last_yax starting as None. -/
def fig_axForms_init (axforms : List AxFormCfg) : Except String (List AxFormCfg) :=
  if axforms = [] then
    Except.error "At least one axes-type instance must be provided."
  else
    Except.ok (figForms_loop none axforms)

/-- The yax of the format preceding position i (None at position 0),
with last as the value before the first element. -/
def prevYax (last : Option String) (l : List AxFormCfg) : ℕ → Option String
  | 0 => last
  | i + 1 => (l.get? i).map (fun a => a.yax)

/-- The state of one axes object that finalize can touch. -/
structure AxM where
  comp : String
  ylabel : Option String
  xlabel : Option String
  title : Option String
  xticklabels_hidden : Bool
  yticklabels_hidden : Bool
  vlns : List ℚ
  annots : List String
deriving DecidableEq

/-- Apply f to the last element of a list (axes[-1]). -/
def mapLast (f : AxM → AxM) : List AxM → List AxM
  | [] => []
  | [a] => [f a]
  | a :: b :: t => a :: mapLast f (b :: t)

/-- Apply f to the first element of a list (axes[0]). -/
def mapHead (f : AxM → AxM) : List AxM → List AxM
  | [] => []
  | a :: t => f a :: t

/-- The style attributes base_axForm.finalize reads; hasattr checks
are modelled by Option fields. -/
structure FinStyle where
  hide_ylabels : Bool
  ylabel_attr : Option String
  xlabel_attr : Option String
  title_attr : Option String
  grid_x_attr : Option (List ℚ)
  labels_attr : Option (List (String × String))
deriving DecidableEq

/-- finalize line 74: axes.hide(xticklabels, ax=axes[-1]). -/
def stage_hide_xt (l : List AxM) : List AxM :=
  mapLast (fun a => { a with xticklabels_hidden := true }) l

/-- finalize lines 75-76: hide every yticklabels when hide_ylabels. -/
def stage_hide_yt (s : FinStyle) (l : List AxM) : List AxM :=
  if s.hide_ylabels then l.map (fun a => { a with yticklabels_hidden := true }) else l

/-- finalize lines 77-79: set every ylabel when not hide_ylabels and
the attribute is present. -/
def stage_ylabel (s : FinStyle) (l : List AxM) : List AxM :=
  match s.hide_ylabels, s.ylabel_attr with
  | false, some yl => l.map (fun a => { a with ylabel := some yl })
  | _, _ => l

/-- finalize lines 80-81: set the xlabel of axes[-1] when present. -/
def stage_xlabel (s : FinStyle) (l : List AxM) : List AxM :=
  match s.xlabel_attr with
  | some xl => mapLast (fun a => { a with xlabel := some xl }) l
  | none => l

/-- finalize lines 82-83: set the title of axes[0] when present. -/
def stage_title (s : FinStyle) (l : List AxM) : List AxM :=
  match s.title_attr with
  | some t => mapHead (fun a => { a with title := some t }) l
  | none => l

/-- finalize lines 84-87: draw the vertical grid lines when present. -/
def stage_grid (s : FinStyle) (l : List AxM) : List AxM :=
  match s.grid_x_attr with
  | some gx => l.map (fun a => { a with vlns := a.vlns ++ gx })
  | none => l

/-- finalize lines 88-90: annotate each axes corner with
labels[ax.comp]; a comp missing from the dict raises a KeyError. -/
def annotStep (lbls : List (String × String)) : List AxM → Except String (List AxM)
  | [] => Except.ok []
  | a :: t =>
      match lbls.lookup a.comp with
      | some v =>
          match annotStep lbls t with
          | Except.ok r => Except.ok ({ a with annots := a.annots ++ [v] } :: r)
          | Except.error e => Except.error e
      | none => Except.error ("KeyError: " ++ a.comp)

/-- The labels stage of finalize, a no-op when the attribute is absent. -/
def stage_labels (s : FinStyle) (l : List AxM) : Except String (List AxM) :=
  match s.labels_attr with
  | some lbls => annotStep lbls l
  | none => Except.ok l

/-- base_axForm.finalize (lines 65-90): the statements in source order. -/
def base_axForm_finalize (s : FinStyle) (l : List AxM) : Except String (List AxM) :=
  stage_labels s
    (stage_grid s (stage_title s (stage_xlabel s (stage_ylabel s
      (stage_hide_yt s (stage_hide_xt l))))))

/-- The action of every stage of finalize except the labels stage on
the axes at position i of a group of n axes, written pointwise. -/
def preStep (s : FinStyle) (n i : ℕ) (a : AxM) : AxM :=
  let a := if i + 1 = n then { a with xticklabels_hidden := true } else a
  let a := if s.hide_ylabels then { a with yticklabels_hidden := true } else a
  let a :=
    match s.hide_ylabels, s.ylabel_attr with
    | false, some yl => { a with ylabel := some yl }
    | _, _ => a
  let a :=
    match s.xlabel_attr with
    | some xl => if i + 1 = n then { a with xlabel := some xl } else a
    | none => a
  let a :=
    match s.title_attr with
    | some t => if i = 0 then { a with title := some t } else a
    | none => a
  match s.grid_x_attr with
  | some gx => { a with vlns := a.vlns ++ gx }
  | none => a

/-- The action of finalize on the axes at position i of a group of n
axes, written pointwise; used to state what finalize does. -/
def finStep (s : FinStyle) (n i : ℕ) (a : AxM) : AxM :=
  let b := preStep s n i a
  match s.labels_attr with
  | some lbls =>
      match lbls.lookup b.comp with
      | some v => { b with annots := b.annots ++ [v] }
      | none => b
  | none => b

/-- Whether the labels stage can complete: every comp of the axes group
is a key of the labels dict (vacuously true when the attribute is
absent). -/
def labelsOk (s : FinStyle) (l : List AxM) : Bool :=
  match s.labels_attr with
  | some lbls => l.all (fun a => (lbls.lookup a.comp).isSome)
  | none => true

/-- Whether an Except value is a success. -/
def isOkE {α : Type} : Except String α → Bool
  | Except.ok _ => true
  | Except.error _ => false

/-- A concrete stand-in for mlab.psd whose outputs make the
zero-frequency bin visible: it returns p = [10, 20, 30] over the
frequencies f = [0, 1, 2]. -/
def mlabPsd0 : List ℚ → ℤ → ℚ → List ℚ × List ℚ :=
  fun _ _ _ => ([10, 20, 30], [0, 1, 2])

/-- A concrete stand-in for mlab.cohere, analogous to mlabPsd0. -/
def mlabCoh0 : List ℚ → List ℚ → ℤ → ℚ → List ℚ × List ℚ :=
  fun _ _ _ _ => ([10, 20, 30], [0, 1, 2])

/-- A small concrete tsdata object: one grid point, three components,
four time samples. -/
def tsd0 : TsDataM :=
  ⟨1, (0, 0), [10],
    [[[1]], [[2]], [[3]]],
    [[[[1, 2, 3, 4]]], [[[2, 3, 4, 5]]], [[[3, 4, 5, 6]]]],
    [[[5]], [[6]], [[7]]]⟩

/-- A concrete tsrun object matching tsd0. -/
def tsr0 : TsRunM :=
  ⟨(0, 0), [10], [[[5]], [[6]], [[7]]]⟩

/-- A concrete _calc_tsdata method for the dispatch examples. -/
def tsdataFn0 : PyObj → ℕ → List ℚ × List ℚ :=
  fun _ _ => ([1], [1])

/-- A concrete _calc_tsrun method, returning a different pair. -/
def tsrunFn0 : PyObj → ℕ → List ℚ × List ℚ :=
  fun _ _ => ([2], [2])

/-- A concrete format carrying both calc methods. -/
def fmtBoth : AxFormM :=
  ⟨"spec_axForm", some tsdataFn0, some tsrunFn0⟩

/-- An object whose class derives from both tsdata and tsrun. -/
def objBoth : PyObj :=
  ⟨"tsboth", [PyClass.otherCls "tsboth", PyClass.tsdata, PyClass.tsrun, PyClass.objectCls]⟩

/-- An object deriving from tsdata only. -/
def objData : PyObj :=
  ⟨"tsdata", [PyClass.tsdata, PyClass.objectCls]⟩

/-- An object deriving from neither supported class. -/
def objInt : PyObj :=
  ⟨"int", [PyClass.otherCls "int", PyClass.objectCls]⟩

/-- A velprof-like configuration: yax is z. -/
def cfgVel : AxFormCfg :=
  ⟨"z", false, some 1, 600, none⟩

/-- A tkeprof-like configuration: yax is z as well. -/
def cfgTke : AxFormCfg :=
  ⟨"z", false, some 1, 600, none⟩

/-- A concrete style for the finalize example: stressprof-like, with
grid lines and corner labels present. -/
def style0 : FinStyle :=
  ⟨false, some "z [m]", some "[m/s]", some "stress", some [0],
    some [("u", "uv"), ("v", "uw"), ("w", "vw")]⟩

/-- A fresh axes object with component c. -/
def freshAx (c : String) : AxM :=
  ⟨c, none, none, none, false, false, [], []⟩

/-- A concrete axes group with the three standard components. -/
def axs0 : List AxM :=
  [freshAx "u", freshAx "v", freshAx "w"]

deriving instance DecidableEq for Except

theorem lookup_append (l1 l2 : List (String × PyArg)) (k : String) :
    (l1 ++ l2).lookup k
      = (match l1.lookup k with
         | some v => some v
         | none => l2.lookup k) := by
  induction l1 with
  | nil => simp [List.lookup]
  | cons p t ih =>
      cases p with
      | mk a b =>
          simp only [List.cons_append, List.lookup]
          cases k == a
          · exact ih
          · rfl

theorem figForms_loop_get? :
    ∀ (l : List AxFormCfg) (last : Option String) (i : ℕ),
      (figForms_loop last l).get? i
        = (l.get? i).map
            (fun a => if prevYax last l i = some a.yax then markHideY a else a) := by
  intro l
  induction l with
  | nil => intro last i; rfl
  | cons a t ih =>
      intro last i
      cases i with
      | zero => simp [figForms_loop, prevYax]
      | succ j =>
          simp only [figForms_loop, List.get?_cons_succ]
          rw [ih (some a.yax) j]
          cases j with
          | zero => simp [prevYax]
          | succ k => simp [prevYax]

theorem mapLast_length (f : AxM → AxM) :
    ∀ l : List AxM, (mapLast f l).length = l.length := by
  intro l
  induction l with
  | nil => rfl
  | cons a t ih =>
      cases t with
      | nil => rfl
      | cons b t2 => simpa [mapLast] using ih

theorem mapLast_get? (f : AxM → AxM) :
    ∀ (l : List AxM) (i : ℕ),
      (mapLast f l).get? i
        = (l.get? i).map (fun a => if i + 1 = l.length then f a else a) := by
  intro l
  induction l with
  | nil => intro i; rfl
  | cons a t ih =>
      intro i
      cases t with
      | nil =>
          cases i with
          | zero => simp [mapLast]
          | succ j => simp [mapLast]
      | cons b t2 =>
          cases i with
          | zero =>
              have h01 : ¬ (0 + 1 = (a :: b :: t2).length) := by
                simp [List.length_cons]
              simp [mapLast, h01]
          | succ j =>
              simp only [mapLast, List.get?_cons_succ]
              rw [ih j]
              cases hj : (b :: t2).get? j with
              | none => simp
              | some a0 =>
                  simp only [Option.map_some']
                  have hiff : (j + 1 = (b :: t2).length)
                      ↔ (j + 1 + 1 = (a :: b :: t2).length) := by
                    simp [List.length_cons]
                  rw [if_congr hiff rfl rfl]

theorem mapHead_length (f : AxM → AxM) :
    ∀ l : List AxM, (mapHead f l).length = l.length := by
  intro l
  cases l <;> simp [mapHead]

theorem mapHead_get? (f : AxM → AxM) :
    ∀ (l : List AxM) (i : ℕ),
      (mapHead f l).get? i = (l.get? i).map (fun a => if i = 0 then f a else a) := by
  intro l i
  cases l with
  | nil => rfl
  | cons a t =>
      cases i with
      | zero => simp [mapHead]
      | succ j => simp [mapHead]

theorem annotStep_isOkE (lbls : List (String × String)) :
    ∀ l : List AxM,
      isOkE (annotStep lbls l) = l.all (fun a => (lbls.lookup a.comp).isSome) := by
  intro l
  induction l with
  | nil => rfl
  | cons a t ih =>
      simp only [annotStep, List.all_cons]
      cases hk : lbls.lookup a.comp with
      | none => simp [isOkE, hk]
      | some v =>
          cases ht : annotStep lbls t with
          | ok r => simp [isOkE, hk, ← ih, ht]
          | error e => simp [isOkE, hk, ← ih, ht]

theorem annotStep_get? (lbls : List (String × String)) :
    ∀ (l : List AxM) (r : List AxM), annotStep lbls l = Except.ok r →
      ∀ i, r.get? i = (l.get? i).map (fun a =>
        match lbls.lookup a.comp with
        | some v => { a with annots := a.annots ++ [v] }
        | none => a) := by
  intro l
  induction l with
  | nil =>
      intro r h i
      simp only [annotStep] at h
      cases h
      rfl
  | cons a t ih =>
      intro r h i
      simp only [annotStep] at h
      cases hk : lbls.lookup a.comp with
      | none => rw [hk] at h; cases h
      | some v =>
          rw [hk] at h
          cases ht : annotStep lbls t with
          | error e => rw [ht] at h; cases h
          | ok rt =>
              rw [ht] at h
              cases h
              cases i with
              | zero => simp [hk]
              | succ j => simpa using ih rt ht j

theorem stage_hide_xt_length (l : List AxM) : (stage_hide_xt l).length = l.length :=
  mapLast_length _ l

theorem stage_hide_xt_get? (l : List AxM) (i : ℕ) :
    (stage_hide_xt l).get? i
      = (l.get? i).map
          (fun a => if i + 1 = l.length then { a with xticklabels_hidden := true } else a) :=
  mapLast_get? _ l i

theorem stage_hide_yt_length (s : FinStyle) (l : List AxM) :
    (stage_hide_yt s l).length = l.length := by
  unfold stage_hide_yt
  cases s.hide_ylabels <;> simp

theorem stage_hide_yt_get? (s : FinStyle) (l : List AxM) (i : ℕ) :
    (stage_hide_yt s l).get? i
      = (l.get? i).map
          (fun a => if s.hide_ylabels then { a with yticklabels_hidden := true } else a) := by
  unfold stage_hide_yt
  cases s.hide_ylabels
  · simp
  · simp [List.get?_map]

theorem stage_ylabel_length (s : FinStyle) (l : List AxM) :
    (stage_ylabel s l).length = l.length := by
  unfold stage_ylabel
  cases s.hide_ylabels <;> cases s.ylabel_attr <;> simp

theorem stage_ylabel_get? (s : FinStyle) (l : List AxM) (i : ℕ) :
    (stage_ylabel s l).get? i
      = (l.get? i).map (fun a =>
          match s.hide_ylabels, s.ylabel_attr with
          | false, some yl => { a with ylabel := some yl }
          | _, _ => a) := by
  unfold stage_ylabel
  cases s.hide_ylabels <;> cases s.ylabel_attr <;> simp [List.get?_map]

theorem stage_xlabel_length (s : FinStyle) (l : List AxM) :
    (stage_xlabel s l).length = l.length := by
  unfold stage_xlabel
  cases s.xlabel_attr <;> simp [mapLast_length]

theorem stage_xlabel_get? (s : FinStyle) (l : List AxM) (i : ℕ) :
    (stage_xlabel s l).get? i
      = (l.get? i).map (fun a =>
          match s.xlabel_attr with
          | some xl => if i + 1 = l.length then { a with xlabel := some xl } else a
          | none => a) := by
  unfold stage_xlabel
  cases s.xlabel_attr with
  | none => simp
  | some xl => exact mapLast_get? _ l i

theorem stage_title_length (s : FinStyle) (l : List AxM) :
    (stage_title s l).length = l.length := by
  unfold stage_title
  cases s.title_attr <;> simp [mapHead_length]

theorem stage_title_get? (s : FinStyle) (l : List AxM) (i : ℕ) :
    (stage_title s l).get? i
      = (l.get? i).map (fun a =>
          match s.title_attr with
          | some t => if i = 0 then { a with title := some t } else a
          | none => a) := by
  unfold stage_title
  cases s.title_attr with
  | none => simp
  | some t => exact mapHead_get? _ l i

theorem stage_grid_length (s : FinStyle) (l : List AxM) :
    (stage_grid s l).length = l.length := by
  unfold stage_grid
  cases s.grid_x_attr <;> simp

theorem stage_grid_get? (s : FinStyle) (l : List AxM) (i : ℕ) :
    (stage_grid s l).get? i
      = (l.get? i).map (fun a =>
          match s.grid_x_attr with
          | some gx => { a with vlns := a.vlns ++ gx }
          | none => a) := by
  unfold stage_grid
  cases s.grid_x_attr <;> simp [List.get?_map]

theorem all_comp_map (g : AxM → AxM) (hg : ∀ a, (g a).comp = a.comp)
    (p : String → Bool) :
    ∀ l : List AxM, (l.map g).all (fun a => p a.comp) = l.all (fun a => p a.comp) := by
  intro l
  induction l with
  | nil => rfl
  | cons a t ih => simp [hg, ih]

theorem all_comp_mapLast (g : AxM → AxM) (hg : ∀ a, (g a).comp = a.comp)
    (p : String → Bool) :
    ∀ l : List AxM, (mapLast g l).all (fun a => p a.comp) = l.all (fun a => p a.comp) := by
  intro l
  induction l with
  | nil => rfl
  | cons a t ih =>
      cases t with
      | nil => simp [mapLast, hg]
      | cons b t2 =>
          simp only [mapLast, List.all_cons] at ih ⊢
          rw [ih]

theorem all_comp_mapHead (g : AxM → AxM) (hg : ∀ a, (g a).comp = a.comp)
    (p : String → Bool) :
    ∀ l : List AxM, (mapHead g l).all (fun a => p a.comp) = l.all (fun a => p a.comp) := by
  intro l
  cases l with
  | nil => rfl
  | cons a t => simp [mapHead, hg]

theorem stage_hide_xt_all_comp (p : String → Bool) (l : List AxM) :
    (stage_hide_xt l).all (fun a => p a.comp) = l.all (fun a => p a.comp) :=
  all_comp_mapLast (fun a => { a with xticklabels_hidden := true }) (fun _ => rfl) p l

theorem stage_hide_yt_all_comp (s : FinStyle) (p : String → Bool) (l : List AxM) :
    (stage_hide_yt s l).all (fun a => p a.comp) = l.all (fun a => p a.comp) := by
  unfold stage_hide_yt
  cases s.hide_ylabels
  · simp
  · exact all_comp_map (fun a => { a with yticklabels_hidden := true }) (fun _ => rfl) p l

theorem stage_ylabel_all_comp (s : FinStyle) (p : String → Bool) (l : List AxM) :
    (stage_ylabel s l).all (fun a => p a.comp) = l.all (fun a => p a.comp) := by
  unfold stage_ylabel
  cases s.hide_ylabels with
  | false =>
      cases s.ylabel_attr with
      | none => rfl
      | some yl => exact all_comp_map (fun a => { a with ylabel := some yl }) (fun _ => rfl) p l
  | true =>
      cases s.ylabel_attr with
      | none => rfl
      | some yl => rfl

theorem stage_xlabel_all_comp (s : FinStyle) (p : String → Bool) (l : List AxM) :
    (stage_xlabel s l).all (fun a => p a.comp) = l.all (fun a => p a.comp) := by
  unfold stage_xlabel
  cases s.xlabel_attr with
  | none => rfl
  | some xl => exact all_comp_mapLast (fun a => { a with xlabel := some xl }) (fun _ => rfl) p l

theorem stage_title_all_comp (s : FinStyle) (p : String → Bool) (l : List AxM) :
    (stage_title s l).all (fun a => p a.comp) = l.all (fun a => p a.comp) := by
  unfold stage_title
  cases s.title_attr with
  | none => rfl
  | some t => exact all_comp_mapHead (fun a => { a with title := some t }) (fun _ => rfl) p l

theorem stage_grid_all_comp (s : FinStyle) (p : String → Bool) (l : List AxM) :
    (stage_grid s l).all (fun a => p a.comp) = l.all (fun a => p a.comp) := by
  unfold stage_grid
  cases s.grid_x_attr with
  | none => rfl
  | some gx => exact all_comp_map (fun a => { a with vlns := a.vlns ++ gx }) (fun _ => rfl) p l

theorem chain_all_comp (s : FinStyle) (p : String → Bool) (l : List AxM) :
    (stage_grid s (stage_title s (stage_xlabel s (stage_ylabel s
        (stage_hide_yt s (stage_hide_xt l)))))).all (fun a => p a.comp)
      = l.all (fun a => p a.comp) := by
  rw [stage_grid_all_comp, stage_title_all_comp, stage_xlabel_all_comp,
    stage_ylabel_all_comp, stage_hide_yt_all_comp, stage_hide_xt_all_comp]

theorem chain_get? (s : FinStyle) (l : List AxM) (i : ℕ) :
    (stage_grid s (stage_title s (stage_xlabel s (stage_ylabel s
        (stage_hide_yt s (stage_hide_xt l)))))).get? i
      = (l.get? i).map (preStep s l.length i) := by
  rw [stage_grid_get?, stage_title_get?, stage_xlabel_get?,
    stage_ylabel_length, stage_hide_yt_length, stage_hide_xt_length,
    stage_ylabel_get?, stage_hide_yt_get?, stage_hide_xt_get?]
  cases l.get? i with
  | none => rfl
  | some a => rfl

/-- C1: for every tsdata sample interval dt > 0, the nfft computed by
spec_axForm._calc_tsdata and cohere_axForm._calc_tsdata equals the
truncated quotient int(window_time / dt) incremented by one exactly
when that quotient is odd, hence it is always even. -/
theorem claim_C1_nfft_even (self : SpecAxForm) (cself : CohereAxForm) (dt : ℚ)
    (h : 0 < dt) :
    spec_axForm_nfft self dt
        = (if pyInt (self.window_time / dt) % 2 = 1
           then pyInt (self.window_time / dt) + 1
           else pyInt (self.window_time / dt))
    ∧ spec_axForm_nfft self dt % 2 = 0
    ∧ cohere_axForm_nfft cself dt
        = (if pyInt (cself.window_time / dt) % 2 = 1
           then pyInt (cself.window_time / dt) + 1
           else pyInt (cself.window_time / dt))
    ∧ cohere_axForm_nfft cself dt % 2 = 0 := by
  unfold spec_axForm_nfft cohere_axForm_nfft
  refine ⟨?_, ?_, ?_, ?_⟩
  · generalize pyInt (self.window_time / dt) = q
    have h2 : q % 2 = 0 ∨ q % 2 = 1 := by omega
    rcases h2 with h2 | h2 <;> simp [h2]
  · generalize pyInt (self.window_time / dt) = q
    show (q + q % 2) % 2 = 0
    omega
  · generalize pyInt (cself.window_time / dt) = q
    have h2 : q % 2 = 0 ∨ q % 2 = 1 := by omega
    rcases h2 with h2 | h2 <;> simp [h2]
  · generalize pyInt (cself.window_time / dt) = q
    show (q + q % 2) % 2 = 0
    omega

/-- Witness for C1 at the concrete inputs dt = 1 and the formats built
by the constructors. -/
theorem claim_C1_witness :
    (0 : ℚ) < 1
    ∧ spec_axForm_nfft (spec_axForm_init 600 none) 1 % 2 = 0
    ∧ cohere_axForm_nfft (cohere_axForm_init 600 none none) 1 % 2 = 0 :=
  ⟨by norm_num,
    (claim_C1_nfft_even (spec_axForm_init 600 none)
      (cohere_axForm_init 600 none none) 1 (by norm_num)).2.1,
    (claim_C1_nfft_even (spec_axForm_init 600 none)
      (cohere_axForm_init 600 none none) 1 (by norm_num)).2.2.2⟩

/-- C7: summfig.savefig passes the caller dpi through unchanged when
one is given, uses 300 otherwise, and forwards every other argument
unchanged to fig.savefig. -/
theorem claim_C7_savefig_dpi (args : List PyArg) (kwargs : List (String × PyArg)) :
    (summfig_savefig args kwargs).args = args
    ∧ (∀ v, kwargs.lookup "dpi" = some v →
        (summfig_savefig args kwargs).kwargs.lookup "dpi" = some v)
    ∧ (kwargs.lookup "dpi" = none →
        (summfig_savefig args kwargs).kwargs.lookup "dpi" = some (PyArg.numA 300))
    ∧ (∀ k, k ≠ "dpi" →
        (summfig_savefig args kwargs).kwargs.lookup k = kwargs.lookup k) := by
  refine ⟨rfl, ?_, ?_, ?_⟩
  · intro v hv
    unfold summfig_savefig dict_setdefault
    simp [hv]
  · intro hv
    unfold summfig_savefig dict_setdefault
    rw [if_neg (by simp [hv])]
    rw [lookup_append]
    simp [hv, List.lookup]
  · intro k hk
    unfold summfig_savefig dict_setdefault
    by_cases hd : (kwargs.lookup "dpi").isSome
    · rw [if_pos hd]
    · rw [if_neg hd]
      rw [lookup_append]
      have hkd : (k == "dpi") = false := by
        simp [hk]
      cases hkv : kwargs.lookup k with
      | none => simp [List.lookup, hkd]
      | some v => simp

/-- Witness for C7: a call with an explicit dpi of 100 keeps it. -/
theorem claim_C7_witness :
    ([("dpi", PyArg.numA 100)].lookup "dpi" = some (PyArg.numA 100))
    ∧ (summfig_savefig [] [("dpi", PyArg.numA 100)]).kwargs.lookup "dpi"
        = some (PyArg.numA 100) :=
  ⟨rfl, (claim_C7_savefig_dpi [] [("dpi", PyArg.numA 100)]).2.1 (PyArg.numA 100) rfl⟩

/-- C8: the constructors of spec_axForm and cohere_axForm store
window_time = 600 whatever window_time_sec was passed, so _calc_tsdata
behaves identically for every requested window duration. -/
theorem claim_C8_window_time_fixed (w : ℚ) (g g0 g1 : Option (ℕ × ℕ))
    (mlabPsd : List ℚ → ℤ → ℚ → List ℚ × List ℚ)
    (mlabCoh : List ℚ → List ℚ → ℤ → ℚ → List ℚ × List ℚ)
    (tsd : TsDataM) (comp : ℕ) (ig ig0 ig1 : Option (ℕ × ℕ)) :
    (spec_axForm_init w g).window_time = 600
    ∧ (cohere_axForm_init w g0 g1).window_time = 600
    ∧ spec_axForm_calc_tsdata mlabPsd (spec_axForm_init w g) tsd comp ig
        = spec_axForm_calc_tsdata mlabPsd (spec_axForm_init 600 g) tsd comp ig
    ∧ cohere_axForm_calc_tsdata mlabCoh (cohere_axForm_init w g0 g1) tsd comp ig0 ig1
        = cohere_axForm_calc_tsdata mlabCoh (cohere_axForm_init 600 g0 g1) tsd comp ig0 ig1 :=
  ⟨rfl, rfl, rfl, rfl⟩

/-- C10: stressprof igrid=0 is swallowed by the or-default and yields
the hub lateral index, identically to igrid=None, for tsdata and tsrun
alike; an explicit 0 can only ever select index 0 when the hub lateral
index is itself 0. -/
theorem claim_C10_igrid_zero (tsd : TsDataM) (tsr : TsRunM) (comp : ℕ) :
    stressprof_calc_tsdata tsd comp (some 0) = stressprof_calc_tsdata tsd comp none
    ∧ stressprof_calc_tsrun tsr comp (some 0) = stressprof_calc_tsrun tsr comp none
    ∧ (∀ n : ℤ, pyOrInt (some n) (tsd.ihub.2 : ℤ) = 0 → (tsd.ihub.2 : ℤ) = 0) := by
  refine ⟨by simp [stressprof_calc_tsdata, pyOrInt],
    by simp [stressprof_calc_tsrun, pyOrInt], ?_⟩
  intro n hn
  simp only [pyOrInt] at hn
  by_cases h0 : n = 0
  · rw [if_pos h0] at hn
    exact hn
  · rw [if_neg h0] at hn
    exact absurd hn h0

/-- Witness for C10 at tsd0, whose hub lateral index is 0. -/
theorem claim_C10_witness :
    pyOrInt (some 0) ((tsd0.ihub.2 : ℤ)) = 0 ∧ (tsd0.ihub.2 : ℤ) = 0 :=
  ⟨by decide, (claim_C10_igrid_zero tsd0 tsr0 0).2.2 0 (by decide)⟩

/-- C9 counterexample: with igrid left as None but icoh supplied, the
mis-ordered setinds call succeeds and showts reaches plotting, so the
claim that every igrid=None call fails inside setinds is false. -/
theorem claim_C9_counterexample :
    summfig_setinds PyVal.noneV (PyVal.pairV 0 0) (PyVal.dataV tsd0)
        = Except.ok (PyVal.pairV 0 0, PyVal.dataV tsd0)
    ∧ showts tsd0 PyVal.noneV (PyVal.pairV 0 0)
        = Except.ok [([1], [10]), ([2], [10]), ([3], [10])] := by
  constructor
  · rfl
  · decide

/-- C9 amended: when both igrid and icoh keep their None defaults, the
mis-ordered setinds call dereferences None and showts fails with an
attribute error inside setinds, before any plotting. -/
theorem claim_C9_amended (tsd : TsDataM) :
    summfig_setinds PyVal.noneV PyVal.noneV (PyVal.dataV tsd)
        = Except.error "AttributeError: NoneType object has no attribute ihub"
    ∧ showts tsd PyVal.noneV PyVal.noneV
        = Except.error "AttributeError: NoneType object has no attribute ihub" :=
  ⟨rfl, rfl⟩

/-- C3: once the component argument resolves, base_axForm._calc raises
the exception naming the object type exactly when neither class of
method_map (tsdata, tsrun) appears in the mro of the object, and when
one does appear the dispatch itself raises nothing. -/
theorem claim_C3_dispatch_error (self : AxFormM) (obj : PyObj) (comp : CompArg)
    (c : ℕ) (hc : compIndex comp = Except.ok c) :
    (base_axForm_calc self obj comp
        = Except.error ("Object type " ++ obj.clsName ++ " not recognized for "
            ++ self.name ++ " axes-type")
      ↔ (PyClass.tsdata ∉ obj.mro ∧ PyClass.tsrun ∉ obj.mro))
    ∧ ((PyClass.tsdata ∈ obj.mro ∨ PyClass.tsrun ∈ obj.mro) →
        ∃ r, base_axForm_calc self obj comp = Except.ok r) := by
  unfold base_axForm_calc
  rw [hc]
  by_cases h1 : PyClass.tsdata ∈ obj.mro
  · simp only [method_map, findMeth, if_pos h1, getMeth]
    cases hm : self.calc_tsdata with
    | none => exact ⟨by simp [h1], fun _ => ⟨CalcResult.nanPair, rfl⟩⟩
    | some g => exact ⟨by simp [h1], fun _ => ⟨CalcResult.pair (g obj c), rfl⟩⟩
  · by_cases h2 : PyClass.tsrun ∈ obj.mro
    · simp only [method_map, findMeth, if_neg h1, if_pos h2, getMeth]
      cases hm : self.calc_tsrun with
      | none => exact ⟨by simp [h2], fun _ => ⟨CalcResult.nanPair, rfl⟩⟩
      | some g => exact ⟨by simp [h2], fun _ => ⟨CalcResult.pair (g obj c), rfl⟩⟩
    · simp only [method_map, findMeth, if_neg h1, if_neg h2]
      constructor
      · simp [h1, h2]
      · rintro (h | h) <;> contradiction

/-- Witness for C3: an unsupported object raises the naming exception
and a supported object does not. -/
theorem claim_C3_witness :
    compIndex (CompArg.strC "u") = Except.ok 0
    ∧ base_axForm_calc fmtBoth objInt (CompArg.strC "u")
        = Except.error ("Object type " ++ objInt.clsName ++ " not recognized for "
            ++ fmtBoth.name ++ " axes-type")
    ∧ (∃ r, base_axForm_calc fmtBoth objData (CompArg.strC "u") = Except.ok r) :=
  ⟨rfl,
    (claim_C3_dispatch_error fmtBoth objInt (CompArg.strC "u") 0 rfl).1.mpr
      (by decide),
    (claim_C3_dispatch_error fmtBoth objData (CompArg.strC "u") 0 rfl).2
      (Or.inl (by decide))⟩

/-- C5 counterexample: objBoth derives from tsrun, yet _calc returns
the pair of _calc_tsdata, not the pair of _calc_tsrun, because the
tsdata entry of method_map is found first in the mro scan. -/
theorem claim_C5_counterexample :
    PyClass.tsrun ∈ objBoth.mro
    ∧ tsrunFn0 objBoth 0 = ([2], [2])
    ∧ base_axForm_calc fmtBoth objBoth (CompArg.intC 0)
        = Except.ok (CalcResult.pair ([1], [1]))
    ∧ base_axForm_calc fmtBoth objBoth (CompArg.intC 0)
        ≠ Except.ok (CalcResult.pair (tsrunFn0 objBoth 0)) := by
  refine ⟨by decide, by decide, by decide, by decide⟩

/-- C5 amended: _calc is a strategy table over method_map: the strings
u, v, w map to 0, 1, 2; an object deriving from tsdata is dispatched
to _calc_tsdata; an object deriving from tsrun and not from tsdata is
dispatched to _calc_tsrun (when both classes appear in the mro, the
first match in the method_map scan wins, tsdata here). -/
theorem claim_C5_strategy_table (self : AxFormM) (obj : PyObj) (comp : CompArg)
    (c : ℕ) (g h' : PyObj → ℕ → List ℚ × List ℚ)
    (hc : compIndex comp = Except.ok c)
    (hg : self.calc_tsdata = some g) (hh : self.calc_tsrun = some h') :
    compIndex (CompArg.strC "u") = Except.ok 0
    ∧ compIndex (CompArg.strC "v") = Except.ok 1
    ∧ compIndex (CompArg.strC "w") = Except.ok 2
    ∧ (PyClass.tsdata ∈ obj.mro →
        base_axForm_calc self obj comp = Except.ok (CalcResult.pair (g obj c)))
    ∧ (PyClass.tsrun ∈ obj.mro → PyClass.tsdata ∉ obj.mro →
        base_axForm_calc self obj comp = Except.ok (CalcResult.pair (h' obj c))) := by
  refine ⟨rfl, rfl, rfl, ?_, ?_⟩
  · intro h1
    unfold base_axForm_calc
    rw [hc]
    simp [method_map, findMeth, if_pos h1, getMeth, hg]
  · intro h2 h1
    unfold base_axForm_calc
    rw [hc]
    simp [method_map, findMeth, if_neg h1, if_pos h2, getMeth, hh]

/-- Witness for C5 amended: a tsdata-derived object is dispatched to
the _calc_tsdata method of the format. -/
theorem claim_C5_witness :
    PyClass.tsdata ∈ objData.mro
    ∧ base_axForm_calc fmtBoth objData (CompArg.intC 0)
        = Except.ok (CalcResult.pair (tsdataFn0 objData 0)) :=
  ⟨by decide,
    (claim_C5_strategy_table fmtBoth objData (CompArg.intC 0) 0 tsdataFn0 tsrunFn0
      rfl rfl rfl).2.2.2.1 (by decide)⟩

/-- C4 counterexample: constructing a fig_axForms figure from two
formats that share yax = z mutates the second format: its hide_ylabels
field is True afterwards although it was False after construction, so
a field outside the settable index pairs changed. -/
theorem claim_C4_counterexample :
    cfgTke.hide_ylabels = false
    ∧ fig_axForms_init [cfgVel, cfgTke] = Except.ok [cfgVel, markHideY cfgTke]
    ∧ markHideY cfgTke ≠ cfgTke := by
  refine ⟨rfl, by decide, by decide⟩

/-- C4 amended: fig_axForms.__init__ leaves every format field
unchanged except hide_ylabels, which it sets to True exactly on the
formats whose yax equals the yax of the preceding format; plot and
finalize read the formats without writing them. -/
theorem claim_C4_init_mutation (l : List AxFormCfg) (r : List AxFormCfg)
    (h : fig_axForms_init l = Except.ok r) (i : ℕ) :
    r.get? i = (l.get? i).map
      (fun a => if prevYax none l i = some a.yax then markHideY a else a) := by
  unfold fig_axForms_init at h
  by_cases hl : l = []
  · rw [if_pos hl] at h
    cases h
  · rw [if_neg hl] at h
    cases h
    exact figForms_loop_get? l none i

/-- Witness for C4 amended at the concrete two-format list. -/
theorem claim_C4_witness :
    fig_axForms_init [cfgVel, cfgTke] = Except.ok [cfgVel, markHideY cfgTke]
    ∧ [cfgVel, markHideY cfgTke].get? 1
        = ([cfgVel, cfgTke].get? 1).map
            (fun a => if prevYax none [cfgVel, cfgTke] 1 = some a.yax
                      then markHideY a else a) :=
  ⟨by decide,
    claim_C4_init_mutation [cfgVel, cfgTke] [cfgVel, markHideY cfgTke] (by decide) 1⟩

/-- C2 counterexample: the helpers psd and coh drop the zero-frequency
bin, but plot_spectra, summfig.plot_spec and summfig.plot_coh plot the
full arrays of the underlying routine, zero-frequency bin included, so
the plotted arrays differ from the bin-dropped arrays. -/
theorem claim_C2_counterexample :
    (psd mlabPsd0 [1] 1 4).1 = [1, 2]
    ∧ (plot_spectra mlabPsd0 tsd0 1024 none).get? 0
        = some (([0, 1, 2] : List ℚ), ([10, 20, 30] : List ℚ))
    ∧ (([0, 1, 2] : List ℚ))
        ≠ (mlabPsd0 (uturbAt tsd0 0 tsd0.ihub) 1024 (1 / tsd0.dt)).2.drop 1
    ∧ (summfig_plot_spec mlabPsd0 1024 (0, 0) tsd0).get? 0
        = some (([0, 1, 2] : List ℚ), ([10, 20, 30] : List ℚ))
    ∧ (summfig_plot_coh mlabCoh0 1024 (0, 0) (0, 0) tsd0).get? 0
        = some (([0, 1, 2] : List ℚ), ([10, 20, 30] : List ℚ)) := by
  refine ⟨by decide, by decide, by decide, by decide, by decide⟩

/-- C2 amended: the helpers psd and coh return the arrays of the
underlying routine shifted by one (the zero-frequency bin dropped),
while the direct plotting paths plot_spectra, summfig.plot_spec and
summfig.plot_coh plot the full (f, p) arrays of the routine, the
zero-frequency bin included. -/
theorem claim_C2_zero_bin (mlabPsd : List ℚ → ℤ → ℚ → List ℚ × List ℚ)
    (mlabCoh : List ℚ → List ℚ → ℤ → ℚ → List ℚ × List ℚ)
    (u u1 u2 : List ℚ) (sr : ℚ) (nfft : ℤ) (i : ℕ)
    (tsd : TsDataM) (nfft2 : ℤ) (ig : Option (ℕ × ℕ)) (sg sc : ℕ × ℕ) :
    (psd mlabPsd u sr nfft).1.get? i = (mlabPsd u nfft sr).2.get? (i + 1)
    ∧ (psd mlabPsd u sr nfft).2.get? i = (mlabPsd u nfft sr).1.get? (i + 1)
    ∧ (coh mlabCoh u1 u2 sr nfft).1.get? i = (mlabCoh u1 u2 nfft sr).2.get? (i + 1)
    ∧ (coh mlabCoh u1 u2 sr nfft).2.get? i = (mlabCoh u1 u2 nfft sr).1.get? (i + 1)
    ∧ (∀ ind pr, (plot_spectra mlabPsd tsd nfft2 ig).get? ind = some pr →
        pr = ((mlabPsd (uturbAt tsd ind (ig.getD tsd.ihub)) nfft2 (1 / tsd.dt)).2,
              (mlabPsd (uturbAt tsd ind (ig.getD tsd.ihub)) nfft2 (1 / tsd.dt)).1))
    ∧ (∀ ind pr, (summfig_plot_spec mlabPsd nfft2 sg tsd).get? ind = some pr →
        pr = ((mlabPsd (uturbAt tsd ind sg) nfft2 (1 / tsd.dt)).2,
              (mlabPsd (uturbAt tsd ind sg) nfft2 (1 / tsd.dt)).1))
    ∧ (∀ ind pr, (summfig_plot_coh mlabCoh nfft2 sg sc tsd).get? ind = some pr →
        pr = ((mlabCoh (uturbAt tsd ind sg) (uturbAt tsd ind sc) nfft2 (1 / tsd.dt)).2,
              (mlabCoh (uturbAt tsd ind sg) (uturbAt tsd ind sc) nfft2 (1 / tsd.dt)).1)) := by
  refine ⟨?_, ?_, ?_, ?_, ?_, ?_, ?_⟩
  · simp [psd, List.get?_drop, Nat.add_comm]
  · simp [psd, List.get?_drop, Nat.add_comm]
  · simp [coh, List.get?_drop, Nat.add_comm]
  · simp [coh, List.get?_drop, Nat.add_comm]
  · intro ind pr h
    unfold plot_spectra at h
    rw [List.get?_map] at h
    rcases Nat.lt_or_ge ind 3 with hlt | hge
    · rw [List.get?_range hlt] at h
      cases h
      rfl
    · rw [List.get?_eq_none.mpr (by simpa using hge)] at h
      cases h
  · intro ind pr h
    unfold summfig_plot_spec at h
    rw [List.get?_map] at h
    rcases Nat.lt_or_ge ind 3 with hlt | hge
    · rw [List.get?_range hlt] at h
      cases h
      rfl
    · rw [List.get?_eq_none.mpr (by simpa using hge)] at h
      cases h
  · intro ind pr h
    unfold summfig_plot_coh at h
    rw [List.get?_map] at h
    rcases Nat.lt_or_ge ind 3 with hlt | hge
    · rw [List.get?_range hlt] at h
      cases h
      rfl
    · rw [List.get?_eq_none.mpr (by simpa using hge)] at h
      cases h

/-- Witness for C2 amended at concrete routines and data. -/
theorem claim_C2_witness :
    (plot_spectra mlabPsd0 tsd0 1024 none).get? 0
        = some (([0, 1, 2] : List ℚ), ([10, 20, 30] : List ℚ))
    ∧ (([0, 1, 2] : List ℚ), ([10, 20, 30] : List ℚ))
        = ((mlabPsd0 (uturbAt tsd0 0 (Option.getD none tsd0.ihub)) 1024 (1 / tsd0.dt)).2,
           (mlabPsd0 (uturbAt tsd0 0 (Option.getD none tsd0.ihub)) 1024 (1 / tsd0.dt)).1) :=
  ⟨by decide,
    (claim_C2_zero_bin mlabPsd0 mlabCoh0 [1] [1] [1] 1 4 0 tsd0 1024 none (0, 0)
      (0, 0)).2.2.2.2.1 0 (([0, 1, 2] : List ℚ), ([10, 20, 30] : List ℚ)) (by decide)⟩

/-- C6: base_axForm.finalize fails only when the labels attribute is
present and lacks the comp of some axes (so the absence of any of the
optional attributes never causes a failure), and on success each
cosmetic step is applied to position i exactly when the corresponding
attribute is present, leaving everything else unchanged, as recorded
pointwise by finStep. -/
theorem claim_C6_finalize_optional (s : FinStyle) (l : List AxM) :
    isOkE (base_axForm_finalize s l) = labelsOk s l
    ∧ ∀ r, base_axForm_finalize s l = Except.ok r →
        ∀ i, r.get? i = (l.get? i).map (finStep s l.length i) := by
  constructor
  · unfold base_axForm_finalize stage_labels labelsOk
    cases hl : s.labels_attr with
    | none => rfl
    | some lbls =>
        rw [annotStep_isOkE]
        exact chain_all_comp s (fun c => (lbls.lookup c).isSome) l
  · intro r h i
    unfold base_axForm_finalize at h
    cases hl : s.labels_attr with
    | none =>
        simp only [stage_labels, hl] at h
        cases h
        rw [chain_get?]
        cases hx : l.get? i with
        | none => rfl
        | some a =>
            simp only [Option.map_some']
            unfold finStep
            rw [hl]
    | some lbls =>
        simp only [stage_labels, hl] at h
        have hg := annotStep_get? lbls _ r h i
        rw [chain_get?] at hg
        rw [hg]
        cases hx : l.get? i with
        | none => rfl
        | some a =>
            simp only [Option.map_some']
            unfold finStep
            rw [hl]

/-- Witness for C6 at a concrete stressprof-like style and a fresh
three-axes group. -/
theorem claim_C6_witness :
    base_axForm_finalize style0 axs0
        = Except.ok [⟨"u", some "z [m]", none, some "stress", false, false, [0], ["uv"]⟩,
            ⟨"v", some "z [m]", none, none, false, false, [0], ["uw"]⟩,
            ⟨"w", some "z [m]", some "[m/s]", none, true, false, [0], ["vw"]⟩]
    ∧ ([⟨"u", some "z [m]", none, some "stress", false, false, [0], ["uv"]⟩,
          ⟨"v", some "z [m]", none, none, false, false, [0], ["uw"]⟩,
          ⟨"w", some "z [m]", some "[m/s]", none, true, false, [0], ["vw"]⟩] : List AxM).get? 0
        = (axs0.get? 0).map (finStep style0 axs0.length 0) :=
  ⟨by decide, (claim_C6_finalize_optional style0 axs0).2 _ (by decide) 0⟩
